import Mathlib

/-!
Shallow embedding of the deploy task plugin
(`pkg/microservice/warpdrive/core/service/taskplugin/deploy.go`).

External collaborators (the Kubernetes cluster, the aslan HTTP service,
the image updaters) are modelled as oracle environments whose fields hold
the result each call would return; the control flow of `Run`, `Wait`,
`fetchRelatedWorkloads`, `workLoadDeployStat` and
`getResourcesPodOwnerUID` is translated branch by branch from the source.
-/

namespace ZadigDeploy

/-- `setting.Deployment`. -/
def deploymentKind : String := "Deployment"

/-- `setting.StatefulSet`. -/
def statefulSetKind : String := "StatefulSet"

/-- `setting.CronJob`. -/
def cronJobKind : String := "CronJob"

/-- `config.Status` values used by the deploy plugin. -/
inductive Status where
  | created
  | running
  | passed
  | failed
  | timeout
  | cancelled
deriving DecidableEq, BEq, Repr

/-- A pod-template label set (`map[string]string`), as an association list. -/
abbrev Labels := List (String × String)

/-- One container of a workload's pod template: name and current image. -/
structure ContainerSpec where
  name : String
  image : String
deriving DecidableEq, Repr

/-- A workload object (Deployment / StatefulSet / CronJob) as far as `Run`
reads it: name, pod-template containers, pod-template labels. -/
structure Workload where
  name : String
  containers : List ContainerSpec
  templateLabels : Labels
deriving DecidableEq, Repr

/-- `task.Resource`: one mutated workload record. -/
structure Resource where
  kind : String
  container : String
  origin : String
  name : String
  podOwnerUID : String
deriving DecidableEq, Repr

/-- `task.Deploy`: the fields of the deploy Task that the plugin reads or
writes. `nsName` is the Go `Namespace` field. -/
structure DeployTask where
  envName : String
  productName : String
  nsName : String
  serviceName : String
  containerName : String
  image : String
  skipWaiting : Bool
  taskStatus : Status
  error : String
  replaceResources : List Resource
  relatedPodLabels : List Labels
deriving DecidableEq, Repr

/-- `IsTaskDone`: status outside Created/Running. -/
def isTaskDone (t : DeployTask) : Bool :=
  !(t.taskStatus == .created) && !(t.taskStatus == .running)

/-- Go `strings.TrimSuffix`: drop `suf` from the end of `s` when present,
otherwise return `s` unchanged (implemented over the character list so it
evaluates by kernel reduction). -/
def trimSuffixStr (s suf : String) : String :=
  let n := s.data.length - suf.data.length
  if suf.data.length ≤ s.data.length && s.data.drop n == suf.data then
    String.mk (s.data.take n)
  else s

/-- Oracle environment for one execution of `Run`: the result of every
external call `Run` (and the workload resolution helpers) can make.
`Except.error e` means the Go call returned error `e`; `Option Workload`
results encode the `(obj, found)` pair of the getters. -/
structure RunEnv where
  deployClusterID : String
  restConfigRes : Except String Unit
  kubeClientRes : Except String Unit
  clientSetRes : Except String Unit
  serverVersionRes : Except String Unit
  productSleeping : Except String Bool
  workloadType : Except String String
  listDeployments : Except String (List Workload)
  listStatefulSets : Except String (List Workload)
  listCronJobs : Except String (List Workload × List Workload)
  renderedManifests : Except String (List (Option (String × String)))
  getDeploymentByName : String → Except String (Option Workload)
  getStatefulSetByName : String → Except String (Option Workload)
  getCronJobByName : String → Except String (Bool × Option Workload × Option Workload)
  updateImage : String → String → Except String Unit

/-- The four workload lists returned by workload resolution. -/
abbrev Quad := List Workload × List Workload × List Workload × List Workload

/-- One manifest of `fetchWorkloadsForImportedService`'s loop: a decode
failure is skipped, a decoded `(kind, name)` is dispatched to a typed get,
and get errors / not-found are skipped. -/
def importedStep (env : RunEnv) (acc : Quad) (m : Option (String × String)) : Quad :=
  match m with
  | none => acc
  | some (kind, name) =>
    let (ds, ss, cs, cbs) := acc
    if kind == deploymentKind then
      match env.getDeploymentByName name with
      | .ok (some d) => (ds ++ [d], ss, cs, cbs)
      | _ => acc
    else if kind == statefulSetKind then
      match env.getStatefulSetByName name with
      | .ok (some s) => (ds, ss ++ [s], cs, cbs)
      | _ => acc
    else if kind == cronJobKind then
      match env.getCronJobByName name with
      | .ok (true, cjOpt, cbOpt) =>
        let cs2 := match cjOpt with | some c => cs ++ [c] | none => cs
        let cbs2 := match cbOpt with | some c => cbs ++ [c] | none => cbs
        (ds, ss, cs2, cbs2)
      | _ => acc
    else acc

/-- `fetchWorkloadsForImportedService`: fetch rendered manifests and
dispatch each decoded manifest by kind. -/
def fetchWorkloadsForImportedService (env : RunEnv) : Except String Quad :=
  match env.renderedManifests with
  | .error e => .error e
  | .ok ms => .ok (ms.foldl (importedStep env) ([], [], [], []))

/-- `fetchRelatedWorkloads`: three label-selector list queries; any list
error aborts; a non-empty union is returned as is; a fully empty union
falls back to the manifest path. The `Bool` marks whether the fallback
call site was reached. -/
def fetchRelatedWorkloads (env : RunEnv) : Except String Quad × Bool :=
  match env.listDeployments with
  | .error e => (.error e, false)
  | .ok ds =>
    match env.listStatefulSets with
    | .error e => (.error e, false)
    | .ok ss =>
      match env.listCronJobs with
      | .error e => (.error e, false)
      | .ok (cs, cbs) =>
        if ds.length > 0 || ss.length > 0 || cs.length > 0 || cbs.length > 0 then
          (.ok (ds, ss, cs, cbs), false)
        else
          (fetchWorkloadsForImportedService env, true)

/-- Build the `task.Resource` appended after a successful image patch. -/
def mkRes (kind : String) (w : Workload) (c : ContainerSpec) : Resource :=
  { kind := kind, container := c.name, origin := c.image, name := w.name, podOwnerUID := "" }

/-- First workload in list order owning a container whose name equals the
stripped container name, together with that (first) container. -/
def findMatch (ws : List Workload) (cname : String) : Option (Workload × ContainerSpec) :=
  ws.findSome? fun w => (w.containers.find? fun c => c.name == cname).map fun c => (w, c)

/-- One labelled loop of `Run`'s unknown-`WorkloadType` path: scan the
workloads of one kind for the first container-name match, patch its image,
append the `Resource` and the pod-template labels, and break out of the
whole loop. `fmtKind` is the literal kind segment of the error message. -/
def mutateList (env : RunEnv) (kind fmtKind : String) (ws : List Workload)
    (cname : String) (t : DeployTask) (replaced : Bool) :
    Except String (DeployTask × Bool) :=
  match findMatch ws cname with
  | none => .ok (t, replaced)
  | some (w, c) =>
    match env.updateImage kind w.name with
    | .error e =>
      .error ("failed to update container image in " ++ t.nsName ++ "/" ++ fmtKind
        ++ "/" ++ w.name ++ "/" ++ c.name ++ ": " ++ e)
    | .ok _ =>
      .ok ({ t with
              replaceResources := t.replaceResources ++ [mkRes kind w c],
              relatedPodLabels := t.relatedPodLabels ++ [w.templateLabels] }, true)

/-- One container scan of `Run`'s known-`WorkloadType` path: first matching
container of the single fetched workload is patched and recorded. Note the
known path appends no pod-template labels. -/
def mutateOne (env : RunEnv) (kind fmtKind : String) (w : Workload)
    (cname : String) (t : DeployTask) (replaced : Bool) :
    Except String (DeployTask × Bool) :=
  match w.containers.find? fun c => c.name == cname with
  | none => .ok (t, replaced)
  | some c =>
    match env.updateImage kind w.name with
    | .error e =>
      .error ("failed to update container image in " ++ t.nsName ++ "/" ++ fmtKind
        ++ "/" ++ w.name ++ "/" ++ c.name ++ ": " ++ e)
    | .ok _ =>
      .ok ({ t with replaceResources := t.replaceResources ++ [mkRes kind w c] }, true)

/-- `Run`'s unknown-`WorkloadType` path: resolve workloads, then the four
labelled loops (Deployment, StatefulSet, CronJob, CronJobBeta) in source
order. The source's cron loops reuse the literal "statefulsets" in their
error message. Returns (error slot, task, replaced flag). -/
def runUnknown (env : RunEnv) (t : DeployTask) (cname : String) :
    Option String × DeployTask × Bool :=
  match (fetchRelatedWorkloads env).1 with
  | .error e => (some ("failed to fetch related workloads: " ++ e), t, false)
  | .ok (ds, ss, cs, cbs) =>
    match mutateList env deploymentKind "deployments" ds cname t false with
    | .error e => (some e, t, false)
    | .ok (t1, r1) =>
      match mutateList env statefulSetKind "statefulsets" ss cname t1 r1 with
      | .error e => (some e, t1, r1)
      | .ok (t2, r2) =>
        match mutateList env cronJobKind "statefulsets" cs cname t2 r2 with
        | .error e => (some e, t2, r2)
        | .ok (t3, r3) =>
          match mutateList env cronJobKind "statefulsets" cbs cname t3 r3 with
          | .error e => (some e, t3, r3)
          | .ok (t4, r4) => (none, t4, r4)

/-- `Run`'s known-`WorkloadType` switch: direct get by service name, fatal
when absent, then a single container scan (for CronJob: both the current
and the legacy beta object when present). A `WorkloadType` outside the
three kinds falls through the switch and leaves `replaced` false. -/
def runKnown (env : RunEnv) (t : DeployTask) (cname wt : String) :
    Option String × DeployTask × Bool :=
  if wt == statefulSetKind then
    match env.getStatefulSetByName t.serviceName with
    | .error e => (some e, t, false)
    | .ok none => (some ("statefulset: " ++ t.serviceName ++ " not found"), t, false)
    | .ok (some w) =>
      match mutateOne env statefulSetKind "statefulsets" w cname t false with
      | .error e => (some e, t, false)
      | .ok (t1, r1) => (none, t1, r1)
  else if wt == deploymentKind then
    match env.getDeploymentByName t.serviceName with
    | .error e => (some e, t, false)
    | .ok none => (some ("deployment: " ++ t.serviceName ++ " not found"), t, false)
    | .ok (some w) =>
      match mutateOne env deploymentKind "deployments" w cname t false with
      | .error e => (some e, t, false)
      | .ok (t1, r1) => (none, t1, r1)
  else if wt == cronJobKind then
    match env.getCronJobByName t.serviceName with
    | .error e => (some ("failed to get cronjob " ++ t.serviceName ++ ": " ++ e), t, false)
    | .ok (false, _, _) => (some ("cronJob: " ++ t.serviceName ++ " not found"), t, false)
    | .ok (true, cjOpt, cbOpt) =>
      match (match cjOpt with
             | none => Except.ok (t, false)
             | some w => mutateOne env cronJobKind "cronJob" w cname t false) with
      | .error e => (some e, t, false)
      | .ok (t1, r1) =>
        match (match cbOpt with
               | none => Except.ok (t1, r1)
               | some w => mutateOne env cronJobKind "cronJob" w cname t1 r1) with
        | .error e => (some e, t1, r1)
        | .ok (t2, r2) => (none, t2, r2)
  else (none, t, false)

/-- The cluster-config prologue of `Run` (only taken when
`DeployClusterID` is non-empty). `Except.error` is an early `return` with
the error slot set; `Except.ok slot` continues the body with the named
error variable holding `slot`. The source's clientset branch sets the
error slot but, unlike its two siblings, does not `return`. -/
def clusterConfigStep (env : RunEnv) : Except String (Option String) :=
  if env.deployClusterID == "" then .ok none
  else
    match env.restConfigRes with
    | .error e => .error ("can't get k8s rest config: " ++ e)
    | .ok _ =>
      match env.kubeClientRes with
      | .error e => .error ("can't init k8s client: " ++ e)
      | .ok _ =>
        match env.clientSetRes with
        | .error e => .ok (some ("failed to init k8s clientset: " ++ e))
        | .ok _ => .ok none

/-- The body of `Run` up to (but not including) the deferred finalizer:
returns the final value of the named error slot and the mutated task.
After a successful `ServerVersion` call the source's next assignment to
`err` (`productInfo, err := GetProductInfo(...)`) overwrites whatever the
cluster-config prologue left in the slot, so the prologue's carried slot
value is dead here exactly as in the source. -/
def runBody (env : RunEnv) (t : DeployTask) : Option String × DeployTask :=
  match clusterConfigStep env with
  | .error e => (some e, t)
  | .ok _carried =>
    match env.serverVersionRes with
    | .error e => (some ("failed to get kubernetes server version: " ++ e), t)
    | .ok _ =>
      match env.productSleeping with
      | .error e =>
        (some ("failed to get product " ++ t.nsName ++ "/" ++ t.serviceName ++ ": " ++ e), t)
      | .ok sleeping =>
        if sleeping then
          (some ("product " ++ t.productName ++ "/" ++ t.envName ++ " is sleeping"), t)
        else
          match env.workloadType with
          | .error e => (some e, t)
          | .ok wt =>
            match (if wt == "" then
                     runUnknown env t (trimSuffixStr t.containerName ("_" ++ t.serviceName))
                   else
                     runKnown env t (trimSuffixStr t.containerName ("_" ++ t.serviceName)) wt) with
            | (some e, t1, _) => (some e, t1)
            | (none, t1, replaced) =>
              if replaced then (none, t1)
              else
                (some ("container " ++ trimSuffixStr t.containerName ("_" ++ t.serviceName)
                  ++ " is not found in resources "), t1)

/-- `Run` with its deferred finalizer: a non-empty error slot at return
sets `TaskStatus = Failed` and `Error = err.Error()`. -/
def runDeploy (env : RunEnv) (t : DeployTask) : DeployTask :=
  match runBody env t with
  | (some m, t1) => { t1 with taskStatus := .failed, error := m }
  | (none, t1) => t1

/-- The replica/generation counters of a Deployment or StatefulSet as read
by the readiness wrappers. -/
structure WorkloadStatus where
  desiredReplicas : Int
  updatedReplicas : Int
  availableReplicas : Int
  generation : Int
  observedGeneration : Int
deriving DecidableEq, Repr

/-- Modelled from the spec: `wrapper.Deployment(d).Ready()`
(`pkg/shared/kube/wrapper`, not under src/) — ready iff the observed
generation has caught up to the desired generation and both the updated
and the available replica counts equal the desired replica count. -/
def deploymentReady (w : WorkloadStatus) : Bool :=
  w.generation ≤ w.observedGeneration
    && w.updatedReplicas == w.desiredReplicas
    && w.availableReplicas == w.desiredReplicas

/-- Modelled from the spec: `wrapper.StatefulSet(s).Ready()`
(`pkg/shared/kube/wrapper`, not under src/) — the analogous
replica/generation match for StatefulSets. -/
def stsReady (w : WorkloadStatus) : Bool :=
  w.generation ≤ w.observedGeneration
    && w.updatedReplicas == w.desiredReplicas
    && w.availableReplicas == w.desiredReplicas

/-- A container status' waiting state (`cs.State.Waiting`). -/
structure WaitingState where
  reason : String
  message : String
deriving DecidableEq, Repr

/-- A raw container status as read by `workLoadDeployStat`. -/
structure RawContainerStatus where
  waiting : Option WaitingState
deriving DecidableEq, Repr

/-- One entry of the wrapper pod-resource view's container list, as read
by the timeout diagnostic scan. -/
structure ContainerStatusView where
  status : String
  reason : String
  message : String
deriving DecidableEq, Repr

/-- A pod, carrying both the raw container statuses used by
`workLoadDeployStat` and the `wrapper.Pod(pod).Resource()` view used by the
timeout scan. `ownerUID` models the spec's ownership fingerprint: the
wrapper's `IsOwnerMatched(uid)` (not under src/) is modelled as equality
with this field. -/
structure Pod where
  name : String
  ownerUID : String
  initContainerStatuses : List RawContainerStatus
  containerStatuses : List RawContainerStatus
  resourceStatus : String
  resourceContainers : List ContainerStatusView
deriving DecidableEq, Repr

/-- `setting.StatusRunning`. -/
def statusRunningStr : String := "Running"

/-- `setting.StatusSucceeded`. -/
def statusSucceededStr : String := "Succeeded"

/-- The terminal waiting reasons of `workLoadDeployStat`'s switch. -/
def badReasons : List String :=
  ["ImagePullBackOff", "ErrImagePull", "CrashLoopBackOff", "ErrImageNeverPull"]

/-- The first waiting reason of a container status that triggers the
fast-fail of `workLoadDeployStat`, formatted as in the source. -/
def containerBadMsg (podName : String) (cs : RawContainerStatus) : Option String :=
  match cs.waiting with
  | none => none
  | some w =>
    if badReasons.contains w.reason then
      some ("pod: " ++ podName ++ ", " ++ w.reason ++ ": " ++ w.message)
    else none

/-- One pod of `workLoadDeployStat`'s scan: skip pods whose owner does not
match the fingerprint; otherwise scan init then regular container statuses
for the first terminal waiting reason. -/
def scanPod (ownerUID : String) (pod : Pod) : Option String :=
  if pod.ownerUID == ownerUID then
    (pod.initContainerStatuses ++ pod.containerStatuses).findSome? (containerBadMsg pod.name)
  else none

/-- `workLoadDeployStat`: for each recorded label set, list the pods (a
list error is returned as is), and return the first terminal-waiting-reason
message of a fingerprint-matched pod; `none` when the scan is clean. -/
def workLoadDeployStat (listPods : Labels → Except String (List Pod)) :
    List Labels → String → Option String
  | [], _ => none
  | l :: rest, uid =>
    match listPods l with
    | .error e => some e
    | .ok pods =>
      match pods.findSome? (scanPod uid) with
      | some m => some m
      | none => workLoadDeployStat listPods rest uid

/-- Oracle environment for one tick of `Wait`'s select loop. -/
structure TickEnv where
  ctxDone : Bool
  timedOut : Bool
  listPods : Labels → Except String (List Pod)
  getDeployment : String → Except String (Option WorkloadStatus)
  getStatefulSet : String → Except String (Option WorkloadStatus)

/-- Outcome of the default branch's labelled loop over the tracked
resources. -/
inductive TickResult where
  | failedNow (msg : String)
  | done (ready : Bool)
deriving DecidableEq, Repr

/-- The labelled loop `L` of `Wait`'s default branch: per resource, first
the fast-fail pod scan (an error sets Failed and returns), then the
kind-specific readiness fetch; a get error or not-found counts as not
ready; the first not-ready resource breaks the loop. `ready` and the outer
`err` variable are threaded exactly as in the source (a kind outside the
switch leaves `ready` at its previous value). -/
def tickLoop (env : TickEnv) (lbls : List Labels) :
    List Resource → Bool → Option String → TickResult
  | [], ready, _ => .done ready
  | r :: rest, ready, err =>
    match workLoadDeployStat env.listPods lbls r.podOwnerUID with
    | some m => .failedNow m
    | none =>
      if r.kind == deploymentKind then
        match env.getDeployment r.name with
        | .error _ => .done false
        | .ok none => .done false
        | .ok (some d) =>
          if deploymentReady d then tickLoop env lbls rest (deploymentReady d) err
          else .done false
      else if r.kind == statefulSetKind then
        match env.getStatefulSet r.name with
        | .error _ => .done false
        | .ok none => .done false
        | .ok (some s) =>
          if err.isSome then .done false
          else if stsReady s then tickLoop env lbls rest (stsReady s) err
          else .done false
      else tickLoop env lbls rest ready err

/-- `Wait`'s default branch for one tick: run the labelled loop; a
fast-fail message sets Failed with that message; otherwise Passed is set
when every scanned resource was ready. -/
def waitTick (env : TickEnv) (t : DeployTask) : DeployTask :=
  match tickLoop env t.relatedPodLabels t.replaceResources true none with
  | .failedNow m => { t with taskStatus := .failed, error := m }
  | .done ready => if ready then { t with taskStatus := .passed } else t

/-- The diagnostic messages one pod contributes to the timeout scan: for a
pod whose wrapper-view status is neither Running nor Succeeded, every
container entry with a non-empty message, formatted as in the source. -/
def podDiagMsgs (pod : Pod) : List String :=
  if pod.resourceStatus != statusRunningStr && pod.resourceStatus != statusSucceededStr then
    (pod.resourceContainers.filter fun cs => cs.message != "").map fun cs =>
      "Status: " ++ cs.status ++ ", Reason: " ++ cs.reason ++ ", Message: " ++ cs.message
  else []

/-- The timeout branch's scan over the recorded label sets: a pod-list
error aborts with that error; otherwise the per-pod diagnostics are
concatenated in pod-iteration order. -/
def timeoutScan (listPods : Labels → Except String (List Pod)) :
    List Labels → Except String (List String)
  | [] => .ok []
  | l :: rest =>
    match listPods l with
    | .error e => .error e
    | .ok pods =>
      match timeoutScan listPods rest with
      | .error e => .error e
      | .ok ms => .ok ((pods.map podDiagMsgs).flatten ++ ms)

/-- `Wait`'s timeout branch: set Timeout, scan all recorded label sets; a
list error puts that error's text in `Error`; a non-empty message list is
newline-joined into `Error`; otherwise `Error` is left unchanged. -/
def waitTimeout (env : TickEnv) (t : DeployTask) : DeployTask :=
  match timeoutScan env.listPods t.relatedPodLabels with
  | .error e => { t with taskStatus := Status.timeout, error := e }
  | .ok msgs =>
    if msgs.length != 0 then
      { t with taskStatus := Status.timeout, error := String.intercalate "\n" msgs }
    else { t with taskStatus := Status.timeout }

/-- `Wait`'s select loop over a finite trace of tick environments:
cancellation and deadline are checked first; the default branch's tick
result ends the loop when the task is done. An exhausted trace returns the
task as the loop would keep polling. -/
def waitLoop : List TickEnv → DeployTask → DeployTask
  | [], t => t
  | env :: rest, t =>
    if env.ctxDone then { t with taskStatus := .cancelled }
    else if env.timedOut then waitTimeout env t
    else if isTaskDone (waitTick env t) then waitTick env t
    else waitLoop rest (waitTick env t)

/-- A ReplicaSet as read by the fingerprinting step: its UID, creation
timestamp, and whether `metav1.IsControlledBy(rs, deployment)` holds. -/
structure RsObj where
  uid : String
  creationTimestamp : Int
  controlledBy : Bool
deriving DecidableEq, Repr

/-- A StatefulSet object as read by the fingerprinting step. -/
structure StsObj where
  uid : String
deriving DecidableEq, Repr

/-- Oracle environment for `getResourcesPodOwnerUID`. -/
structure SetupEnv where
  getStatefulSetU : String → Except String StsObj
  getDeploymentU : String → Except String Unit
  selectorRes : String → Except String Unit
  listReplicaSets : String → Except String (List RsObj)

/-- The element `sort.Slice` (descending by `CreationTimestamp.After`)
places first: a fold keeping the strictly later-created ReplicaSet. -/
def latestRs (hd : RsObj) : List RsObj → RsObj
  | [] => hd
  | r :: rest => latestRs (if hd.creationTimestamp < r.creationTimestamp then r else hd) rest

/-- One resource of `getResourcesPodOwnerUID`'s loop. The error's `Bool`
flag marks the one branch (`LabelSelectorAsSelector` failure) where the
source returns `nil` instead of the partial list. -/
def enrichStep (senv : SetupEnv) (r : Resource) : Except (Bool × String) Resource :=
  if r.kind == statefulSetKind then
    match senv.getStatefulSetU r.name with
    | .error e => .error (false, e)
    | .ok sts => .ok { r with podOwnerUID := sts.uid }
  else if r.kind == deploymentKind then
    match senv.getDeploymentU r.name with
    | .error e => .error (false, e)
    | .ok _ =>
      match senv.selectorRes r.name with
      | .error e => .error (true, e)
      | .ok _ =>
        match senv.listReplicaSets r.name with
        | .error e => .error (false, e)
        | .ok rss =>
          match rss.filter (fun rs => rs.controlledBy) with
          | [] => .error (false, "no replicaset found for deployment: " ++ r.name)
          | o :: os => .ok { r with podOwnerUID := (latestRs o os).uid }
  else .ok r

/-- `getResourcesPodOwnerUID`: enrich each resource in order; an error
returns the prefix enriched so far (or `nil` for the flagged branch)
together with the error. -/
def enrichAll (senv : SetupEnv) : List Resource → List Resource × Option (Bool × String)
  | [] => ([], none)
  | r :: rest =>
    match enrichStep senv r with
    | .error be => ([], some be)
    | .ok r1 =>
      match enrichAll senv rest with
      | (_, some (true, e)) => ([], some (true, e))
      | (tail, err) => (r1 :: tail, err)

/-- The prologue of `Wait`: `SkipWaiting` sets Passed immediately; a
fingerprinting error sets `Error` (and only `Error`) and returns; on
success the enriched list replaces `ReplaceResources`. The `Bool` says
whether the poll loop is entered. -/
def waitSetup (senv : SetupEnv) (t : DeployTask) : DeployTask × Bool :=
  if t.skipWaiting then ({ t with taskStatus := .passed }, false)
  else
    match enrichAll senv t.replaceResources with
    | (_, some (_, e)) => ({ t with error := "get resource owner info error: " ++ e }, false)
    | (rs, none) => ({ t with replaceResources := rs }, true)

/-- `Wait`: prologue then the select loop over the tick trace. -/
def waitRun (senv : SetupEnv) (envs : List TickEnv) (t : DeployTask) : DeployTask :=
  match waitSetup senv t with
  | (t1, true) => waitLoop envs t1
  | (t1, false) => t1

/-! Concrete fixtures used by the evaluation theorems below. -/

/-- A task about to be deployed, as the scheduler hands it to the plugin. -/
def baseTask : DeployTask :=
  { envName := "env1", productName := "proj", nsName := "ns1",
    serviceName := "myservice", containerName := "api_myservice",
    image := "repo/app:2.0", skipWaiting := false,
    taskStatus := .running, error := "",
    replaceResources := [], relatedPodLabels := [] }

/-- A deployment whose pod template has the container `api`. -/
def deployFixture : Workload :=
  { name := "myservice",
    containers := [{ name := "api", image := "repo/app:1.0" }],
    templateLabels := [("s-product", "proj"), ("s-service", "myservice")] }

/-- A `Run` environment in which the clientset initialisation fails while
every later call succeeds and the unknown-type label path finds a matching
deployment. -/
def envClientSetFail : RunEnv :=
  { deployClusterID := "cluster1",
    restConfigRes := .ok (),
    kubeClientRes := .ok (),
    clientSetRes := .error "connection refused",
    serverVersionRes := .ok (),
    productSleeping := .ok false,
    workloadType := .ok "",
    listDeployments := .ok [deployFixture],
    listStatefulSets := .ok [],
    listCronJobs := .ok ([], []),
    renderedManifests := .ok [],
    getDeploymentByName := fun _ => .ok none,
    getStatefulSetByName := fun _ => .ok none,
    getCronJobByName := fun _ => .ok (false, none, none),
    updateImage := fun _ _ => .ok () }

/-- A fingerprinting environment whose calls all succeed, with one owned
ReplicaSet for the deployment `d1` and the StatefulSet `s1`. -/
def senvTwo : SetupEnv :=
  { getStatefulSetU := fun _ => .ok { uid := "u2" },
    getDeploymentU := fun _ => .ok (),
    selectorRes := fun _ => .ok (),
    listReplicaSets := fun _ => .ok [{ uid := "u1", creationTimestamp := 5, controlledBy := true }] }

/-- A fingerprinting environment whose StatefulSet get fails. -/
def senvStsFail : SetupEnv :=
  { getStatefulSetU := fun _ => .error "boom",
    getDeploymentU := fun _ => .ok (),
    selectorRes := fun _ => .ok (),
    listReplicaSets := fun _ => .ok [] }

/-- A pod that is pending with a non-terminal waiting reason but a
non-empty message in its wrapper view. -/
def podOtherReason : Pod :=
  { name := "p1", ownerUID := "u0",
    initContainerStatuses := [], containerStatuses := [],
    resourceStatus := "Pending",
    resourceContainers := [{ status := "waiting", reason := "SomeOtherReason", message := "mymsg" }] }

/-- A pod owned by fingerprint `u2` stuck in `ImagePullBackOff`. -/
def podImagePull : Pod :=
  { name := "p2", ownerUID := "u2",
    initContainerStatuses := [],
    containerStatuses := [{ waiting := some { reason := "ImagePullBackOff", message := "cannot pull" } }],
    resourceStatus := "Pending",
    resourceContainers := [] }

/-- A tick on which the deadline has been exceeded and the pod listing
returns `podOtherReason`. -/
def tickTimedOut : TickEnv :=
  { ctxDone := false, timedOut := true,
    listPods := fun _ => .ok [podOtherReason],
    getDeployment := fun _ => .ok none,
    getStatefulSet := fun _ => .ok none }

/-- A not-ready deployment status (rollout still in progress). -/
def notReadyDep : WorkloadStatus :=
  { desiredReplicas := 3, updatedReplicas := 1, availableReplicas := 1,
    generation := 2, observedGeneration := 2 }

/-- A tick on which the first tracked deployment is not ready while a pod
owned by the second resource's fingerprint is stuck in a terminal waiting
reason. -/
def tickBadSecond : TickEnv :=
  { ctxDone := false, timedOut := false,
    listPods := fun _ => .ok [podImagePull],
    getDeployment := fun _ => .ok (some notReadyDep),
    getStatefulSet := fun _ => .ok none }

/-- The recorded resources of a run that patched a Deployment and then a
StatefulSet (fingerprints not yet computed). -/
def twoResources : List Resource :=
  [{ kind := "Deployment", container := "api", origin := "repo/app:1.0",
     name := "d1", podOwnerUID := "" },
   { kind := "StatefulSet", container := "api", origin := "repo/app:1.0",
     name := "s1", podOwnerUID := "" }]

/-! Claim theorems. -/

/-- C1: evaluation at the failing input. In `Run`'s cluster prologue the
clientset-initialisation failure is recorded in the named error slot, but
— unlike the two sibling branches — the source does not return there; the
next assignment to `err` (the `GetProductInfo` call) clears the slot, so
`Run` finishes as a success: the task keeps status Running and an empty
`Error`, and the recorded failure is gone. This contradicts the claim
that a recorded non-nil error is never overwritten with nil. -/
theorem c1_clientset_error_cleared :
    envClientSetFail.clientSetRes = Except.error "connection refused"
    ∧ runDeploy envClientSetFail baseTask =
      { baseTask with
          replaceResources :=
            [{ kind := "Deployment", container := "api", origin := "repo/app:1.0",
               name := "myservice", podOwnerUID := "" }],
          relatedPodLabels := [[("s-product", "proj"), ("s-service", "myservice")]] }
    ∧ (runDeploy envClientSetFail baseTask).taskStatus = Status.running
    ∧ (runDeploy envClientSetFail baseTask).error = "" := by
  refine ⟨rfl, rfl, rfl, rfl⟩

/-- C2 counterexample: a task whose status is already terminal (Failed)
but whose `SkipWaiting` flag is set is flipped to Passed by `Wait`,
so a terminal status is not sticky across plugin operations. -/
theorem c2_skipwaiting_overwrites_failed :
    ({ baseTask with skipWaiting := true, taskStatus := .failed, error := "boom" } :
        DeployTask).taskStatus = Status.failed
    ∧ (waitRun senvTwo []
        { baseTask with skipWaiting := true, taskStatus := .failed, error := "boom" }).taskStatus
        = Status.passed := by
  refine ⟨rfl, rfl⟩

/-- C3 counterexample: on timeout the diagnostic scan collects every
container entry with a non-empty message of a pod that is neither Running
nor Succeeded — with no restriction to the four terminal waiting reasons.
Here a reason outside that set is collected into `Error`. -/
theorem c3_timeout_scan_has_no_reason_filter :
    badReasons.contains "SomeOtherReason" = false
    ∧ (waitRun senvTwo [tickTimedOut]
        { baseTask with relatedPodLabels := [[("a", "b")]] }).taskStatus = Status.timeout
    ∧ (waitRun senvTwo [tickTimedOut]
        { baseTask with relatedPodLabels := [[("a", "b")]] }).error
        = "Status: waiting, Reason: SomeOtherReason, Message: mymsg" := by
  refine ⟨rfl, rfl, rfl⟩

/-- C7 counterexample: the per-tick scan breaks at the first not-ready
resource, so a pod with a terminal waiting reason owned by a later
resource's fingerprint does not fail the Wait on that tick: here the pod
matches the second resource's fingerprint `u2` (as computed by the
fingerprinting step) yet the tick leaves the task Running with no error. -/
theorem c7_bad_pod_behind_not_ready_resource_not_detected :
    (waitSetup senvTwo { baseTask with replaceResources := twoResources }).1.replaceResources
      = [{ kind := "Deployment", container := "api", origin := "repo/app:1.0",
           name := "d1", podOwnerUID := "u1" },
         { kind := "StatefulSet", container := "api", origin := "repo/app:1.0",
           name := "s1", podOwnerUID := "u2" }]
    ∧ podImagePull.ownerUID = "u2"
    ∧ badReasons.contains "ImagePullBackOff" = true
    ∧ (waitRun senvTwo [tickBadSecond]
        { baseTask with replaceResources := twoResources }).taskStatus = Status.running
    ∧ (waitRun senvTwo [tickBadSecond]
        { baseTask with replaceResources := twoResources }).error = "" := by
  refine ⟨rfl, rfl, rfl, rfl, rfl⟩

/-- C9 counterexample: a failure of the fingerprinting step
(`getResourcesPodOwnerUID`) is surfaced — it is not a swallowed in-loop
transient — yet `Wait` only sets `Error` and leaves `TaskStatus`
non-terminal (still Running), contradicting the claim that every surfaced
error leaves a terminal status. -/
theorem c9_setup_error_leaves_status_running :
    (waitRun senvStsFail []
        { baseTask with replaceResources := twoResources.drop 1 }).error
      = "get resource owner info error: boom"
    ∧ (waitRun senvStsFail []
        { baseTask with replaceResources := twoResources.drop 1 }).taskStatus = Status.running
    ∧ isTaskDone (waitRun senvStsFail []
        { baseTask with replaceResources := twoResources.drop 1 }) = false := by
  refine ⟨rfl, rfl, rfl⟩

/-! Helper lemmas. -/

theorem latestRs_spec (hd : RsObj) (l : List RsObj) :
    latestRs hd l ∈ hd :: l
    ∧ hd.creationTimestamp ≤ (latestRs hd l).creationTimestamp
    ∧ ∀ x ∈ l, x.creationTimestamp ≤ (latestRs hd l).creationTimestamp := by
  induction l generalizing hd with
  | nil => exact ⟨List.mem_singleton.mpr rfl, le_refl _, by simp⟩
  | cons r rest ih =>
    rcases ih (if hd.creationTimestamp < r.creationTimestamp then r else hd) with ⟨h1, h2, h3⟩
    refine ⟨?_, ?_, ?_⟩
    · rcases List.mem_cons.mp h1 with h | h
      · rw [latestRs, h]
        split
        · exact List.mem_cons_of_mem _ (List.mem_cons_self _ _)
        · exact List.mem_cons_self _ _
      · exact List.mem_cons_of_mem _ (List.mem_cons_of_mem _ h)
    · refine le_trans ?_ h2
      split
      · exact le_of_lt (by assumption)
      · exact le_refl _
    · intro x hx
      rcases List.mem_cons.mp hx with h | h
      · subst h
        refine le_trans ?_ h2
        split
        · exact le_refl _
        · exact le_of_not_lt (by assumption)
      · exact h3 x h

/-- The success-path enrichment of a single resource (what `enrichStep`
yields when none of its external calls fails). -/
def enrichOne (senv : SetupEnv) (r : Resource) : Resource :=
  match enrichStep senv r with
  | .ok r1 => r1
  | .error _ => r

theorem enrichAll_ok_map (senv : SetupEnv) (rs : List Resource)
    (h : (enrichAll senv rs).2 = none) :
    (enrichAll senv rs).1 = rs.map (enrichOne senv) := by
  induction rs with
  | nil => rfl
  | cons r rest ih =>
    rcases hs : enrichStep senv r with be | r1
    · simp [enrichAll, hs] at h
    · rcases ht : enrichAll senv rest with ⟨tail, err⟩
      match err with
      | some (true, e) => simp [enrichAll, hs, ht] at h
      | some (false, e) => simp [enrichAll, hs, ht] at h
      | none =>
        have h2 := ih (by rw [ht])
        rw [ht] at h2
        simp only [enrichAll, hs, ht, List.map]
        simp only at h2
        rw [h2, enrichOne, hs]

theorem enrichStep_preserves (senv : SetupEnv) (r : Resource) :
    (enrichOne senv r).kind = r.kind ∧ (enrichOne senv r).container = r.container
    ∧ (enrichOne senv r).origin = r.origin ∧ (enrichOne senv r).name = r.name := by
  unfold enrichOne
  rcases hs : enrichStep senv r with be | r1
  · exact ⟨rfl, rfl, rfl, rfl⟩
  · unfold enrichStep at hs
    repeat' split at hs
    all_goals cases hs
    all_goals exact ⟨rfl, rfl, rfl, rfl⟩

/-! Claim theorems (continued). -/

/-- C5: the manifest-fallback discovery is invoked if and only if all
three label-selector list queries succeed and every returned list is
empty; a list error aborts without the fallback, and a non-empty label
result returns without the fallback. -/
theorem c5_fallback_iff_label_path_empty (env : RunEnv) :
    (fetchRelatedWorkloads env).2 = true ↔
      env.listDeployments = .ok [] ∧ env.listStatefulSets = .ok []
        ∧ env.listCronJobs = .ok ([], []) := by
  unfold fetchRelatedWorkloads
  split
  next e heqd => simp [heqd]
  next ds heqd =>
    split
    next e heqs => simp [heqd, heqs]
    next ss heqs =>
      split
      next e heqc => simp [heqd, heqs, heqc]
      next cs cbs heqc =>
        split
        next hcond =>
          simp only [Bool.or_eq_true, decide_eq_true_eq] at hcond
          simp only [heqd, heqs, heqc, Except.ok.injEq, Prod.mk.injEq]
          constructor
          · intro hx; exact absurd hx (by simp)
          · rintro ⟨h1, h2, h3, h4⟩
            subst h1; subst h2; subst h3; subst h4
            simp at hcond
        next hcond =>
          simp only [Bool.or_eq_true, decide_eq_true_eq, not_or, Nat.not_lt,
            Nat.le_zero, List.length_eq_zero] at hcond
          simp_all

/-- C6: when the fingerprinting step succeeds, the resulting list is the
original list in order with each element only UID-enriched: kind, name,
container and original image are preserved; a StatefulSet resource gets
the StatefulSet's own UID; a Deployment resource gets the UID of a
latest-created ReplicaSet among those controlled by the Deployment; any
other kind (the CronJob kinds) is returned unchanged. -/
theorem c6_fingerprint_enrichment (senv : SetupEnv) (rs : List Resource)
    (h : (enrichAll senv rs).2 = none) :
    (enrichAll senv rs).1 = rs.map (enrichOne senv)
    ∧ ∀ r ∈ rs,
      ((enrichOne senv r).kind = r.kind ∧ (enrichOne senv r).container = r.container
        ∧ (enrichOne senv r).origin = r.origin ∧ (enrichOne senv r).name = r.name)
      ∧ (r.kind ≠ statefulSetKind → r.kind ≠ deploymentKind → enrichOne senv r = r)
      ∧ (r.kind = statefulSetKind → ∀ o, senv.getStatefulSetU r.name = .ok o →
          (enrichOne senv r).podOwnerUID = o.uid)
      ∧ (r.kind = deploymentKind → senv.getDeploymentU r.name = .ok () →
          senv.selectorRes r.name = .ok () →
          ∀ rss, senv.listReplicaSets r.name = .ok rss →
          ∀ o os, rss.filter (fun x => x.controlledBy) = o :: os →
            latestRs o os ∈ o :: os
            ∧ (enrichOne senv r).podOwnerUID = (latestRs o os).uid
            ∧ ∀ x ∈ o :: os, x.creationTimestamp ≤ (latestRs o os).creationTimestamp) := by
  refine ⟨enrichAll_ok_map senv rs h, ?_⟩
  intro r _
  refine ⟨enrichStep_preserves senv r, ?_, ?_, ?_⟩
  · intro h1 h2
    have b1 : (r.kind == statefulSetKind) = false := by
      simpa using h1
    have b2 : (r.kind == deploymentKind) = false := by
      simpa using h2
    simp [enrichOne, enrichStep, b1, b2]
  · intro hk o ho
    have b1 : (r.kind == statefulSetKind) = true := by simpa using hk
    simp [enrichOne, enrichStep, b1, ho]
  · intro hk hdep hsel rss hrss o os hfil
    have b2 : (r.kind == deploymentKind) = true := by simpa using hk
    have b1 : (r.kind == statefulSetKind) = false := by
      simp only [beq_eq_false_iff_ne, ne_eq]
      rw [hk]
      decide
    have hsp := latestRs_spec o os
    refine ⟨hsp.1, ?_, fun x hx => ?_⟩
    · simp [enrichOne, enrichStep, b1, b2, hdep, hsel, hrss, hfil]
    · rcases List.mem_cons.mp hx with hm | hm
      · subst hm; exact hsp.2.1
      · exact hsp.2.2 x hm

/-- Whether resource `r` is of Deployment/StatefulSet kind, is fetched
successfully on this tick, and is found not ready. -/
def fetchedNotReady (env : TickEnv) (r : Resource) : Bool :=
  if r.kind == deploymentKind then
    match env.getDeployment r.name with
    | .ok (some d) => !deploymentReady d
    | _ => false
  else if r.kind == statefulSetKind then
    match env.getStatefulSet r.name with
    | .ok (some s) => !stsReady s
    | _ => false
  else false

theorem tickLoop_not_ready_blocks (env : TickEnv) (lbls : List Labels) :
    ∀ (l : List Resource) (b : Bool) (err : Option String),
      (∃ r ∈ l, fetchedNotReady env r = true) →
      tickLoop env lbls l b err ≠ TickResult.done true := by
  intro l
  induction l with
  | nil =>
    intro b err h
    simp at h
  | cons x rest ih =>
    intro b err h
    rcases hscan : workLoadDeployStat env.listPods lbls x.podOwnerUID with _ | m
    · by_cases hdk : (x.kind == deploymentKind) = true
      · rcases hget : env.getDeployment x.name with e | w
        · simp [tickLoop, hscan, hdk, hget]
        · rcases w with _ | d
          · simp [tickLoop, hscan, hdk, hget]
          · by_cases hrdy : deploymentReady d = true
            · have hrest : ∃ r ∈ rest, fetchedNotReady env r = true := by
                rcases h with ⟨r, hr, hnr⟩
                rcases List.mem_cons.mp hr with hre | hr2
                · exfalso
                  subst hre
                  simp only [fetchedNotReady, hdk, if_true, hget, hrdy] at hnr
                  simp at hnr
                · exact ⟨r, hr2, hnr⟩
              simp only [tickLoop, hscan, hdk, if_true, hget, hrdy]
              exact ih true err hrest
            · simp [tickLoop, hscan, hdk, hget, hrdy]
      · by_cases hsk : (x.kind == statefulSetKind) = true
        · rcases hget : env.getStatefulSet x.name with e | w
          · simp [tickLoop, hscan, hdk, hsk, hget]
          · rcases w with _ | s
            · simp [tickLoop, hscan, hdk, hsk, hget]
            · by_cases hrdy : stsReady s = true
              · have hrest : ∃ r ∈ rest, fetchedNotReady env r = true := by
                  rcases h with ⟨r, hr, hnr⟩
                  rcases List.mem_cons.mp hr with hre | hr2
                  · exfalso
                    subst hre
                    simp only [fetchedNotReady, hdk, hsk, if_true, hget, hrdy] at hnr
                    simp at hnr
                  · exact ⟨r, hr2, hnr⟩
                rcases herr : err with _ | e0
                · simp only [tickLoop, hscan, hdk, hsk, if_true, hget, hrdy]
                  simp only [Bool.false_eq_true, if_false, Option.isSome_none]
                  exact ih true none hrest
                · simp [tickLoop, hscan, hdk, hsk, hget]
              · simp [tickLoop, hscan, hdk, hsk, hget, hrdy]
        · have hrest : ∃ r ∈ rest, fetchedNotReady env r = true := by
            rcases h with ⟨r, hr, hnr⟩
            rcases List.mem_cons.mp hr with hre | hr2
            · exfalso
              subst hre
              simp only [fetchedNotReady, hdk, hsk] at hnr
              simp at hnr
            · exact ⟨r, hr2, hnr⟩
          simp only [tickLoop, hscan, hdk, hsk]
          simp only [Bool.false_eq_true, if_false]
          exact ih b err hrest
    · simp [tickLoop, hscan]

/-- C8: `Wait` never newly sets Passed on a tick on which some tracked
Deployment/StatefulSet resource is fetched and found not ready — where
readiness (modelled from the spec, the wrapper is outside src/) requires
the observed generation to have caught up to the desired generation and
the updated and available replica counts to equal the desired count. -/
theorem c8_not_ready_blocks_passed (env : TickEnv) (t : DeployTask)
    (h : ∃ r ∈ t.replaceResources, fetchedNotReady env r = true) :
    (waitTick env t).taskStatus = Status.passed → t.taskStatus = Status.passed := by
  intro hp
  unfold waitTick at hp
  rcases hres : tickLoop env t.relatedPodLabels t.replaceResources true none with m | rdy
  · rw [hres] at hp
    simp at hp
  · cases rdy
    · rw [hres] at hp
      exact hp
    · exact absurd hres (tickLoop_not_ready_blocks env _ _ _ _ h)

/-- The spec's concrete StatefulSet scenario: desired 3, updated 3,
available 2 (generations caught up). -/
def sts332 : WorkloadStatus :=
  { desiredReplicas := 3, updatedReplicas := 3, availableReplicas := 2,
    generation := 4, observedGeneration := 4 }

/-- A tick whose StatefulSet get returns the 3/3/2 status. -/
def tickSts332 : TickEnv :=
  { ctxDone := false, timedOut := false,
    listPods := fun _ => .ok [],
    getDeployment := fun _ => .ok none,
    getStatefulSet := fun _ => .ok (some sts332) }

/-- A task tracking one StatefulSet resource. -/
def taskOneSts : DeployTask :=
  { baseTask with replaceResources := twoResources.drop 1 }

/-- Witness for C8, at the spec's 3/3/2 StatefulSet scenario: the
readiness check reports not ready, the tick does not flip the task to
Passed, and the claim theorem applies. -/
theorem c8_witness :
    stsReady sts332 = false
    ∧ (waitTick tickSts332 taskOneSts).taskStatus = Status.running
    ∧ ((waitTick tickSts332 taskOneSts).taskStatus = Status.passed →
        taskOneSts.taskStatus = Status.passed) := by
  refine ⟨rfl, rfl, c8_not_ready_blocks_passed tickSts332 taskOneSts ?_⟩
  refine ⟨{ kind := "StatefulSet", container := "api", origin := "repo/app:1.0",
            name := "s1", podOwnerUID := "" }, ?_, rfl⟩
  simp [taskOneSts, twoResources, baseTask]

/-- C2 (amended): within one `Wait` invocation the polling loop is
single-assignment — once a tick leaves the task in a terminal (done)
state, `Wait` returns that state immediately and no later tick can
overwrite it. -/
theorem c2_terminal_tick_ends_wait (env : TickEnv) (rest : List TickEnv) (t : DeployTask)
    (h1 : env.ctxDone = false) (h2 : env.timedOut = false)
    (h3 : isTaskDone (waitTick env t) = true) :
    waitLoop (env :: rest) t = waitTick env t := by
  simp [waitLoop, h1, h2, h3]

/-- A tick on which the pod listing itself fails. -/
def tickPodsDown : TickEnv :=
  { ctxDone := false, timedOut := false,
    listPods := fun _ => .error "pods down",
    getDeployment := fun _ => .ok none,
    getStatefulSet := fun _ => .ok none }

/-- A task with two tracked resources and one recorded label set. -/
def taskWithLbls : DeployTask :=
  { baseTask with replaceResources := twoResources, relatedPodLabels := [[("a", "b")]] }

/-- Witness for C2's amended theorem: a tick that fails the task ends the
loop even though a timeout tick is queued behind it. -/
theorem c2_witness :
    isTaskDone (waitTick tickPodsDown taskWithLbls) = true
    ∧ waitLoop [tickPodsDown, tickTimedOut] taskWithLbls = waitTick tickPodsDown taskWithLbls :=
  ⟨rfl, c2_terminal_tick_ends_wait tickPodsDown [tickTimedOut] taskWithLbls rfl rfl rfl⟩

/-- Whether the per-tick scan passes straight through resource `r`: its
fast-fail pod scan is clean and its kind-specific readiness evaluates to
ready (a kind outside the switch passes trivially). -/
def tickPasses (env : TickEnv) (lbls : List Labels) (r : Resource) : Bool :=
  (workLoadDeployStat env.listPods lbls r.podOwnerUID == none)
  && (if r.kind == deploymentKind then
        match env.getDeployment r.name with
        | .ok (some d) => deploymentReady d
        | _ => false
      else if r.kind == statefulSetKind then
        match env.getStatefulSet r.name with
        | .ok (some s) => stsReady s
        | _ => false
      else true)

theorem tickLoop_skip_passing (env : TickEnv) (lbls : List Labels) :
    ∀ (pre : List Resource) (l : List Resource),
      (∀ x ∈ pre, tickPasses env lbls x = true) →
      tickLoop env lbls (pre ++ l) true none = tickLoop env lbls l true none := by
  intro pre
  induction pre with
  | nil => intro l _; rfl
  | cons x rest ih =>
    intro l hpre
    have hx := hpre x (List.mem_cons_self x rest)
    have hrest : ∀ y ∈ rest, tickPasses env lbls y = true :=
      fun y hy => hpre y (List.mem_cons_of_mem x hy)
    rw [tickPasses, Bool.and_eq_true] at hx
    obtain ⟨hscan0, hkind⟩ := hx
    have hscan : workLoadDeployStat env.listPods lbls x.podOwnerUID = none := by
      simpa using hscan0
    by_cases hdk : (x.kind == deploymentKind) = true
    · simp only [hdk, if_true] at hkind
      rcases hget : env.getDeployment x.name with e | w
      · rw [hget] at hkind; simp at hkind
      · rcases w with _ | d
        · rw [hget] at hkind; simp at hkind
        · rw [hget] at hkind
          have hkind2 : deploymentReady d = true := hkind
          simp only [List.cons_append, tickLoop, hscan, hdk, if_true, hget, hkind2]
          exact ih l hrest
    · by_cases hsk : (x.kind == statefulSetKind) = true
      · simp only [hdk, Bool.false_eq_true, if_false, hsk, if_true] at hkind
        rcases hget : env.getStatefulSet x.name with e | w
        · rw [hget] at hkind; simp at hkind
        · rcases w with _ | s
          · rw [hget] at hkind; simp at hkind
          · rw [hget] at hkind
            have hkind2 : stsReady s = true := hkind
            simp only [List.cons_append, tickLoop, hscan, hdk, Bool.false_eq_true,
              if_false, hsk, if_true, hget, Option.isSome_none, hkind2]
            exact ih l hrest
      · simp only [List.cons_append, tickLoop, hscan, hdk, hsk, Bool.false_eq_true, if_false]
        exact ih l hrest

/-- C7 (amended): when the per-tick scan reaches a tracked resource —
i.e. every earlier resource passes its fast-fail scan and evaluates ready
— and a pod matching a recorded label set with that resource's fingerprint
has a terminal waiting reason, the tick ends the whole `Wait` immediately
with Failed and that reason's formatted message. (The unamended claim
fails because a not-ready earlier resource breaks the per-tick scan before
later resources are checked.) -/
theorem c7_fast_fail_on_reached_resource (env : TickEnv) (rest : List TickEnv)
    (t : DeployTask) (pre : List Resource) (r : Resource) (post : List Resource) (m : String)
    (h1 : env.ctxDone = false) (h2 : env.timedOut = false)
    (hsplit : t.replaceResources = pre ++ r :: post)
    (hpre : ∀ x ∈ pre, tickPasses env t.relatedPodLabels x = true)
    (hbad : workLoadDeployStat env.listPods t.relatedPodLabels r.podOwnerUID = some m) :
    waitLoop (env :: rest) t = { t with taskStatus := Status.failed, error := m } := by
  have htick : waitTick env t = { t with taskStatus := Status.failed, error := m } := by
    unfold waitTick
    rw [hsplit, tickLoop_skip_passing env _ pre (r :: post) hpre]
    simp only [tickLoop, hbad]
  have hdone : isTaskDone { t with taskStatus := Status.failed, error := m } = true := rfl
  simp [waitLoop, h1, h2, htick, hdone]

/-- Witness for C7's amended theorem: a pod stuck in ImagePullBackOff and
owned by the first tracked resource's fingerprint fails the Wait on that
tick with the formatted message. -/
theorem c7_witness :
    workLoadDeployStat tickBadSecond.listPods [[("a", "b")]] "u2"
      = some "pod: p2, ImagePullBackOff: cannot pull"
    ∧ waitLoop [tickBadSecond]
        { baseTask with
            replaceResources :=
              [{ kind := "StatefulSet", container := "api", origin := "repo/app:1.0",
                 name := "s1", podOwnerUID := "u2" }],
            relatedPodLabels := [[("a", "b")]] }
      = { baseTask with
            replaceResources :=
              [{ kind := "StatefulSet", container := "api", origin := "repo/app:1.0",
                 name := "s1", podOwnerUID := "u2" }],
            relatedPodLabels := [[("a", "b")]],
            taskStatus := Status.failed,
            error := "pod: p2, ImagePullBackOff: cannot pull" } :=
  ⟨rfl, c7_fast_fail_on_reached_resource tickBadSecond [] _ [] _ [] _
    rfl rfl rfl (fun x hx => absurd hx (List.not_mem_nil x)) rfl⟩

theorem waitTimeout_status (env : TickEnv) (t : DeployTask) :
    (waitTimeout env t).taskStatus = Status.timeout := by
  unfold waitTimeout
  split
  · rfl
  · split <;> rfl

theorem waitTick_cases (env : TickEnv) (t : DeployTask) :
    waitTick env t = t ∨ isTaskDone (waitTick env t) = true := by
  unfold waitTick
  rcases tickLoop env t.relatedPodLabels t.replaceResources true none with m | rdy
  · right; rfl
  · cases rdy
    · left; rfl
    · right; rfl

theorem waitLoop_frame (envs : List TickEnv) :
    ∀ tw : DeployTask, waitLoop envs tw = tw ∨ isTaskDone (waitLoop envs tw) = true := by
  induction envs with
  | nil => intro tw; exact Or.inl rfl
  | cons env rest ih =>
    intro tw
    by_cases hc : env.ctxDone = true
    · right
      rw [waitLoop, if_pos hc]
      rfl
    · by_cases ht : env.timedOut = true
      · right
        rw [waitLoop, if_neg hc, if_pos ht]
        unfold isTaskDone
        rw [waitTimeout_status env tw]
        rfl
      · rcases waitTick_cases env tw with heq | hdone
        · by_cases hd : isTaskDone tw = true
          · right
            rw [waitLoop, if_neg hc, if_neg ht, heq, if_pos hd]
            exact hd
          · have hd2 : ¬isTaskDone (waitTick env tw) = true := by
              rw [heq]; exact hd
            rw [waitLoop, if_neg hc, if_neg ht, if_neg hd2, heq]
            exact ih tw
        · right
          rw [waitLoop, if_neg hc, if_neg ht, if_pos hdone]
          exact hdone

/-- C9 (amended): every error surfaced by `Run`'s body reaches the
deferred sink, which sets Failed with the error's message; the polling
loop of `Wait` either leaves the task untouched or leaves it done
(terminal); but a failure of the fingerprinting setup is the exception the
unamended claim misses — it sets only `Error` (prefixed
"get resource owner info error: ") and leaves `TaskStatus` unchanged.
Neither `Run` nor `Wait` returns an error value (both are total
task-to-task functions). -/
theorem c9_error_surfacing (env : RunEnv) (t : DeployTask) (m : String)
    (senv : SetupEnv) (envs : List TickEnv) (tw : DeployTask)
    (pre : List Resource) (b : Bool) (e : String) :
    ((runBody env t).1 = some m →
        (runDeploy env t).taskStatus = Status.failed ∧ (runDeploy env t).error = m)
    ∧ (waitLoop envs tw = tw ∨ isTaskDone (waitLoop envs tw) = true)
    ∧ (tw.skipWaiting = false →
        enrichAll senv tw.replaceResources = (pre, some (b, e)) →
        waitRun senv envs tw
          = { tw with error := "get resource owner info error: " ++ e }) := by
  refine ⟨?_, waitLoop_frame envs tw, ?_⟩
  · intro hm
    unfold runDeploy
    rcases hb : runBody env t with ⟨err, t1⟩
    rw [hb] at hm
    simp only at hm
    subst hm
    exact ⟨rfl, rfl⟩
  · intro hskip henr
    unfold waitRun waitSetup
    rw [hskip]
    simp only [Bool.false_eq_true, if_false, henr]

/-- An environment in which the product is sleeping, so `Run` fails with
the precondition error. -/
def envSleeping : RunEnv :=
  { envClientSetFail with clientSetRes := .ok (), productSleeping := .ok true }

/-- Witness for C9's amended theorem: a sleeping product surfaces through
the sink as Failed with its message, and a fingerprinting failure leaves
the status untouched while setting the prefixed error. -/
theorem c9_witness :
    (runBody envSleeping baseTask).1 = some "product proj/env1 is sleeping"
    ∧ (runDeploy envSleeping baseTask).taskStatus = Status.failed
    ∧ (runDeploy envSleeping baseTask).error = "product proj/env1 is sleeping"
    ∧ waitRun senvStsFail [] taskOneSts
        = { taskOneSts with error := "get resource owner info error: boom" } := by
  refine ⟨rfl, ?_, ?_, ?_⟩
  · exact ((c9_error_surfacing envSleeping baseTask "product proj/env1 is sleeping"
      senvStsFail [] taskOneSts [] false "boom").1 rfl).1
  · exact ((c9_error_surfacing envSleeping baseTask "product proj/env1 is sleeping"
      senvStsFail [] taskOneSts [] false "boom").1 rfl).2
  · exact (c9_error_surfacing envSleeping baseTask "product proj/env1 is sleeping"
      senvStsFail [] taskOneSts [] false "boom").2.2 rfl rfl

/-- Witness for C6: on a concrete successful fingerprinting run, the
result is the order-preserving UID-enrichment of the input list. -/
theorem c6_witness :
    (enrichAll senvTwo twoResources).2 = none
    ∧ (enrichAll senvTwo twoResources).1 = twoResources.map (enrichOne senvTwo)
    ∧ twoResources.map (enrichOne senvTwo)
      = [{ kind := "Deployment", container := "api", origin := "repo/app:1.0",
           name := "d1", podOwnerUID := "u1" },
         { kind := "StatefulSet", container := "api", origin := "repo/app:1.0",
           name := "s1", podOwnerUID := "u2" }] :=
  ⟨rfl, (c6_fingerprint_enrichment senvTwo twoResources rfl).1, rfl⟩

/-- The per-pod diagnostics of the amended C3, written after the amended
claim's words: a pod whose wrapper-view status is neither Running nor
Succeeded contributes, for every container entry with a non-empty
message, its formatted line — with no restriction on the reason. -/
def specPodMsgs (pod : Pod) : List String :=
  if pod.resourceStatus ≠ statusRunningStr ∧ pod.resourceStatus ≠ statusSucceededStr then
    pod.resourceContainers.filterMap fun cs =>
      if cs.message ≠ "" then
        some ("Status: " ++ cs.status ++ ", Reason: " ++ cs.reason ++ ", Message: " ++ cs.message)
      else none
  else []

/-- The amended C3 collection over all recorded label sets, in label-set,
then pod, then container iteration order. -/
def specTimeoutMsgs (listPods : Labels → Except String (List Pod)) (lbls : List Labels) :
    List String :=
  lbls.flatMap fun l =>
    (match listPods l with
     | .ok pods => pods
     | .error _ => []).flatMap specPodMsgs

theorem filter_map_eq_filterMap {α β : Type} (p : α → Bool) (f : α → β) (l : List α) :
    (l.filter p).map f = l.filterMap fun x => if p x then some (f x) else none := by
  induction l with
  | nil => rfl
  | cons x xs ih =>
    by_cases hp : p x = true
    · simp [List.filter_cons, List.filterMap_cons, hp, ih]
    · simp only [Bool.not_eq_true] at hp
      simp [List.filter_cons, List.filterMap_cons, hp, ih]

theorem podDiagMsgs_eq_spec (pod : Pod) : podDiagMsgs pod = specPodMsgs pod := by
  unfold podDiagMsgs specPodMsgs
  by_cases h1 : pod.resourceStatus = statusRunningStr
  · simp [h1]
  · by_cases h2 : pod.resourceStatus = statusSucceededStr
    · simp [h1, h2]
    · simp only [h1, h2, ne_eq, not_false_iff, and_self, if_true, bne_iff_ne,
        decide_not, Bool.and_eq_true, Bool.not_eq_true]
      rw [filter_map_eq_filterMap]
      congr 1
      funext cs
      by_cases hm : cs.message = "" <;> simp [hm]

theorem timeoutScan_ok_spec (listPods : Labels → Except String (List Pod)) :
    ∀ (lbls : List Labels) (msgs : List String),
      timeoutScan listPods lbls = .ok msgs → msgs = specTimeoutMsgs listPods lbls := by
  intro lbls
  induction lbls with
  | nil =>
    intro msgs h
    simp only [timeoutScan] at h
    injection h with h
    rw [← h]
    rfl
  | cons l rest ih =>
    intro msgs h
    rcases hl : listPods l with e | pods
    · simp [timeoutScan, hl] at h
    · rcases hr : timeoutScan listPods rest with e | ms
      · simp [timeoutScan, hl, hr] at h
      · simp only [timeoutScan, hl, hr] at h
        injection h with h
        rw [← h]
        show (List.map podDiagMsgs pods).flatten ++ ms
          = (match listPods l with
             | .ok pods2 => pods2
             | .error _ => []).flatMap specPodMsgs ++ specTimeoutMsgs listPods rest
        rw [hl]
        show (List.map podDiagMsgs pods).flatten ++ ms
          = (List.map specPodMsgs pods).flatten ++ specTimeoutMsgs listPods rest
        rw [List.map_congr_left fun pod _ => podDiagMsgs_eq_spec pod, ih ms hr]

/-- C3 (amended): on a deadline-exceeded tick, `TaskStatus` is set to
Timeout and the diagnostic scan walks all pods matching any recorded
label set; for every pod whose wrapper-view status is neither Running nor
Succeeded, every container entry with a non-empty message is collected
(with no filtering on the waiting reason), in label-set, pod, container
order; when at least one message was collected `Error` becomes their
newline join, and otherwise `Error` is left unchanged. -/
theorem c3_timeout_diagnostics (env : TickEnv) (t : DeployTask) (msgs : List String)
    (h : timeoutScan env.listPods t.relatedPodLabels = .ok msgs) :
    (waitTimeout env t).taskStatus = Status.timeout
    ∧ msgs = specTimeoutMsgs env.listPods t.relatedPodLabels
    ∧ (msgs ≠ [] → (waitTimeout env t).error = String.intercalate "\n" msgs)
    ∧ (msgs = [] → (waitTimeout env t).error = t.error) := by
  refine ⟨waitTimeout_status env t, timeoutScan_ok_spec env.listPods _ msgs h, ?_, ?_⟩
  · intro hne
    have hlen0 : msgs.length ≠ 0 := fun hh => hne (List.length_eq_zero.mp hh)
    have hlen : (msgs.length != 0) = true := by simpa using hlen0
    simp only [waitTimeout, h, hlen, if_true]
  · intro he
    subst he
    simp only [waitTimeout, h]
    rfl

/-- Witness for C3's amended theorem: the concrete pending pod's single
non-empty message is collected and newline-joined into `Error`. -/
theorem c3_witness :
    timeoutScan tickTimedOut.listPods [[("a", "b")]]
      = .ok ["Status: waiting, Reason: SomeOtherReason, Message: mymsg"]
    ∧ (waitTimeout tickTimedOut { baseTask with relatedPodLabels := [[("a", "b")]] }).error
      = "Status: waiting, Reason: SomeOtherReason, Message: mymsg" :=
  ⟨rfl,
    (c3_timeout_diagnostics tickTimedOut { baseTask with relatedPodLabels := [[("a", "b")]] }
      ["Status: waiting, Reason: SomeOtherReason, Message: mymsg"] rfl).2.2.1
      (by simp)⟩

/-- Whether a workload's pod template has a container with the given
(stripped) name. -/
def wlHasContainer (w : Workload) (c : String) : Bool :=
  w.containers.any fun x => x.name == c

/-- The hypothesis of the container-not-found claim: `Run`'s prologue
reaches the container-matching phase (cluster config does not early
return, server version and product lookups succeed, the product is not
sleeping, the service lookup succeeds), the discovery step succeeds, and
no discovered workload has a container matching the stripped logical
container name. -/
def noMatchEnv (env : RunEnv) (t : DeployTask) : Bool :=
  (match clusterConfigStep env with
   | .ok _ => true
   | .error _ => false)
  && (match env.serverVersionRes with
      | .ok _ => true
      | .error _ => false)
  && (match env.productSleeping with
      | .ok false => true
      | _ => false)
  && (match env.workloadType with
      | .error _ => false
      | .ok wt =>
        if wt == "" then
          match (fetchRelatedWorkloads env).1 with
          | .error _ => false
          | .ok (ds, ss, cs, cbs) =>
            (ds ++ ss ++ cs ++ cbs).all fun w =>
              !wlHasContainer w (trimSuffixStr t.containerName ("_" ++ t.serviceName))
        else if wt == statefulSetKind then
          match env.getStatefulSetByName t.serviceName with
          | .ok (some w) => !wlHasContainer w (trimSuffixStr t.containerName ("_" ++ t.serviceName))
          | _ => false
        else if wt == deploymentKind then
          match env.getDeploymentByName t.serviceName with
          | .ok (some w) => !wlHasContainer w (trimSuffixStr t.containerName ("_" ++ t.serviceName))
          | _ => false
        else if wt == cronJobKind then
          match env.getCronJobByName t.serviceName with
          | .ok (true, cjOpt, cbOpt) =>
            (match cjOpt with
             | some w => !wlHasContainer w (trimSuffixStr t.containerName ("_" ++ t.serviceName))
             | none => true)
            && (match cbOpt with
                | some w => !wlHasContainer w (trimSuffixStr t.containerName ("_" ++ t.serviceName))
                | none => true)
          | _ => false
        else true)

theorem find_none_of_no_container (w : Workload) (c : String)
    (h : wlHasContainer w c = false) :
    w.containers.find? (fun x => x.name == c) = none := by
  rw [List.find?_eq_none]
  intro x hx hb
  rw [wlHasContainer] at h
  have hany : w.containers.any (fun x => x.name == c) = true :=
    List.any_eq_true.mpr ⟨x, hx, by simpa using hb⟩
  rw [hany] at h
  exact Bool.noConfusion h

theorem findMatch_none_of_no_match (ws : List Workload) (c : String)
    (h : (ws.all fun w => !wlHasContainer w c) = true) : findMatch ws c = none := by
  rw [findMatch, List.findSome?_eq_none_iff]
  intro w hw
  have hv : wlHasContainer w c = false := by
    have := List.all_eq_true.mp h w hw
    simpa using this
  rw [find_none_of_no_container w c hv]
  rfl

theorem mutateList_nomatch (env : RunEnv) (k fk : String) (ws : List Workload)
    (c : String) (t : DeployTask) (rep : Bool) (h : findMatch ws c = none) :
    mutateList env k fk ws c t rep = .ok (t, rep) := by
  unfold mutateList
  rw [h]

theorem mutateOne_nomatch (env : RunEnv) (k fk : String) (w : Workload)
    (c : String) (t : DeployTask) (rep : Bool)
    (h : w.containers.find? (fun x => x.name == c) = none) :
    mutateOne env k fk w c t rep = .ok (t, rep) := by
  unfold mutateOne
  rw [h]

theorem mutateList_grow (env : RunEnv) (k fk : String) (ws : List Workload)
    (c : String) (t : DeployTask) (rep : Bool) (t1 : DeployTask) (rep1 : Bool)
    (h : mutateList env k fk ws c t rep = .ok (t1, rep1)) :
    ∃ s, t1.replaceResources = t.replaceResources ++ s ∧ (rep1 = true → rep = true ∨ s ≠ []) := by
  unfold mutateList at h
  rcases hm : findMatch ws c with _ | ⟨w, cc⟩
  · simp only [hm] at h
    injection h with h
    injection h with h1 h2
    subst h1; subst h2
    exact ⟨[], by simp, fun hr => Or.inl hr⟩
  · simp only [hm] at h
    rcases hu : env.updateImage k w.name with e | u
    · simp only [hu] at h
      exact absurd h (by simp)
    · simp only [hu] at h
      injection h with h
      injection h with h1 h2
      subst h1
      exact ⟨[mkRes k w cc], rfl, fun _ => Or.inr (by simp)⟩

theorem mutateOne_grow (env : RunEnv) (k fk : String) (w : Workload)
    (c : String) (t : DeployTask) (rep : Bool) (t1 : DeployTask) (rep1 : Bool)
    (h : mutateOne env k fk w c t rep = .ok (t1, rep1)) :
    ∃ s, t1.replaceResources = t.replaceResources ++ s ∧ (rep1 = true → rep = true ∨ s ≠ []) := by
  unfold mutateOne at h
  rcases hm : w.containers.find? (fun x => x.name == c) with _ | cc
  · simp only [hm] at h
    injection h with h
    injection h with h1 h2
    subst h1; subst h2
    exact ⟨[], by simp, fun hr => Or.inl hr⟩
  · simp only [hm] at h
    rcases hu : env.updateImage k w.name with e | u
    · simp only [hu] at h
      exact absurd h (by simp)
    · simp only [hu] at h
      injection h with h
      injection h with h1 h2
      subst h1
      exact ⟨[mkRes k w cc], rfl, fun _ => Or.inr (by simp)⟩

theorem grow_trans {t0 t1 t2 : DeployTask} {r0 r1 r2 : Bool}
    (h1 : ∃ s, t1.replaceResources = t0.replaceResources ++ s ∧ (r1 = true → r0 = true ∨ s ≠ []))
    (h2 : ∃ s, t2.replaceResources = t1.replaceResources ++ s ∧ (r2 = true → r1 = true ∨ s ≠ [])) :
    ∃ s, t2.replaceResources = t0.replaceResources ++ s ∧ (r2 = true → r0 = true ∨ s ≠ []) := by
  obtain ⟨s1, e1, c1⟩ := h1
  obtain ⟨s2, e2, c2⟩ := h2
  refine ⟨s1 ++ s2, by rw [e2, e1, List.append_assoc], ?_⟩
  intro hr2
  rcases c2 hr2 with hr1 | hs2
  · rcases c1 hr1 with hr0 | hs1
    · exact Or.inl hr0
    · exact Or.inr fun hx => hs1 (List.append_eq_nil.mp hx).1
  · exact Or.inr fun hx => hs2 (List.append_eq_nil.mp hx).2

theorem runUnknown_grow (env : RunEnv) (t : DeployTask) (c : String) (t1 : DeployTask)
    (h : runUnknown env t c = (none, t1, true)) :
    ∃ s, t1.replaceResources = t.replaceResources ++ s ∧ s ≠ [] := by
  unfold runUnknown at h
  rcases hf : (fetchRelatedWorkloads env).1 with e | ⟨ds, ss, cs, cbs⟩
  · simp only [hf] at h
    exact absurd h (by simp)
  · simp only [hf] at h
    rcases h1 : mutateList env deploymentKind "deployments" ds c t false with e | ⟨ta, ra⟩
    · simp only [h1] at h
      exact absurd h (by simp)
    · simp only [h1] at h
      rcases h2 : mutateList env statefulSetKind "statefulsets" ss c ta ra with e | ⟨tb, rb⟩
      · simp only [h2] at h
        exact absurd h (by simp)
      · simp only [h2] at h
        rcases h3 : mutateList env cronJobKind "statefulsets" cs c tb rb with e | ⟨tc, rc⟩
        · simp only [h3] at h
          exact absurd h (by simp)
        · simp only [h3] at h
          rcases h4 : mutateList env cronJobKind "statefulsets" cbs c tc rc with e | ⟨td, rd⟩
          · simp only [h4] at h
            exact absurd h (by simp)
          · simp only [h4] at h
            injection h with hx h
            injection h with hy hz
            have g :=
              grow_trans (grow_trans (grow_trans
                (mutateList_grow env _ _ ds c t false ta ra h1)
                (mutateList_grow env _ _ ss c ta ra tb rb h2))
                (mutateList_grow env _ _ cs c tb rb tc rc h3))
                (mutateList_grow env _ _ cbs c tc rc td rd h4)
            obtain ⟨s, hs, hcond⟩ := g
            rw [hy] at hs
            refine ⟨s, hs, ?_⟩
            rcases hcond hz with hfalse | hne
            · exact absurd hfalse (by simp)
            · exact hne

theorem runKnown_grow (env : RunEnv) (t : DeployTask) (c wt : String) (t1 : DeployTask)
    (h : runKnown env t c wt = (none, t1, true)) :
    ∃ s, t1.replaceResources = t.replaceResources ++ s ∧ s ≠ [] := by
  unfold runKnown at h
  by_cases hw1 : (wt == statefulSetKind) = true
  · simp only [hw1, if_true] at h
    rcases hg : env.getStatefulSetByName t.serviceName with e | w?
    · simp only [hg] at h
      exact absurd h (by simp)
    · simp only [hg] at h
      rcases w? with _ | w
      · exact absurd h (by simp)
      · rcases hm : mutateOne env statefulSetKind "statefulsets" w c t false with e | ⟨ta, ra⟩
        · simp only [hm] at h
          exact absurd h (by simp)
        · simp only [hm] at h
          injection h with hx h
          injection h with hy hz
          obtain ⟨s, hs, hcond⟩ := mutateOne_grow env _ _ w c t false ta ra hm
          rw [hy] at hs
          refine ⟨s, hs, ?_⟩
          rcases hcond hz with hfalse | hne
          · exact absurd hfalse (by simp)
          · exact hne
  · simp only [hw1] at h
    by_cases hw2 : (wt == deploymentKind) = true
    · simp only [hw2, if_true] at h
      rcases hg : env.getDeploymentByName t.serviceName with e | w?
      · simp only [hg] at h
        exact absurd h (by simp)
      · simp only [hg] at h
        rcases w? with _ | w
        · exact absurd h (by simp)
        · rcases hm : mutateOne env deploymentKind "deployments" w c t false with e | ⟨ta, ra⟩
          · simp only [hm] at h
            exact absurd h (by simp)
          · simp only [hm] at h
            injection h with hx h
            injection h with hy hz
            obtain ⟨s, hs, hcond⟩ := mutateOne_grow env _ _ w c t false ta ra hm
            rw [hy] at hs
            refine ⟨s, hs, ?_⟩
            rcases hcond hz with hfalse | hne
            · exact absurd hfalse (by simp)
            · exact hne
    · simp only [hw2] at h
      by_cases hw3 : (wt == cronJobKind) = true
      · simp only [hw3, if_true] at h
        rcases hg : env.getCronJobByName t.serviceName with e | trip
        · simp only [hg] at h
          exact absurd h (by simp)
        · simp only [hg] at h
          rcases trip with ⟨found, cjOpt, cbOpt⟩
          rcases found
          · exact absurd h (by simp)
          · have step1 :
                ∀ ta ra, (match cjOpt with
                   | none => Except.ok (t, false)
                   | some w => mutateOne env cronJobKind "cronJob" w c t false)
                  = Except.ok (ta, ra) →
                  ∃ s, ta.replaceResources = t.replaceResources ++ s
                    ∧ (ra = true → False ∨ s ≠ []) := by
              intro ta ra hstep
              rcases cjOpt with _ | w
              · injection hstep with hstep
                injection hstep with hy hz
                subst hy; subst hz
                exact ⟨[], by simp, fun hr => absurd hr (by simp)⟩
              · obtain ⟨s, hs, hcond⟩ := mutateOne_grow env _ _ w c t false ta ra hstep
                refine ⟨s, hs, fun hr => ?_⟩
                rcases hcond hr with hfalse | hne
                · exact absurd hfalse (by simp)
                · exact Or.inr hne
            rcases hs1 : (match cjOpt with
                | none => Except.ok (t, false)
                | some w => mutateOne env cronJobKind "cronJob" w c t false) with e | ⟨ta, ra⟩
            · simp only [hs1] at h
              exact absurd h (by simp)
            · simp only [hs1] at h
              rcases hs2 : (match cbOpt with
                  | none => Except.ok (ta, ra)
                  | some w => mutateOne env cronJobKind "cronJob" w c ta ra) with e | ⟨tb, rb⟩
              · simp only [hs2] at h
                exact absurd h (by simp)
              · simp only [hs2] at h
                injection h with hx h
                injection h with hy hz
                have g1 := step1 ta ra hs1
                have g2 : ∃ s, tb.replaceResources = ta.replaceResources ++ s
                    ∧ (rb = true → ra = true ∨ s ≠ []) := by
                  rcases cbOpt with _ | w
                  · injection hs2 with hs2
                    injection hs2 with hy2 hz2
                    exact ⟨[], by rw [← hy2]; simp, fun hr => Or.inl (hz2.trans hr)⟩
                  · exact mutateOne_grow env _ _ w c ta ra tb rb hs2
                obtain ⟨s1, e1, c1⟩ := g1
                obtain ⟨s2, e2, c2⟩ := g2
                rw [hy] at e2
                refine ⟨s1 ++ s2, by rw [e2, e1, List.append_assoc], ?_⟩
                rcases c2 hz with hra | hne
                · rcases c1 hra with hfalse | hne1
                  · exact absurd hfalse (by simp)
                  · exact fun hx2 => hne1 (List.append_eq_nil.mp hx2).1
                · exact fun hx2 => hne (List.append_eq_nil.mp hx2).2
      · simp only [hw3] at h
        exact absurd h (by simp)

theorem runBody_none_grows (env : RunEnv) (t : DeployTask) (t1 : DeployTask)
    (h : runBody env t = (none, t1)) :
    ∃ s, t1.replaceResources = t.replaceResources ++ s ∧ s ≠ [] := by
  unfold runBody at h
  rcases hcc : clusterConfigStep env with e | carried
  · simp only [hcc] at h
    exact absurd h (by simp)
  · simp only [hcc] at h
    rcases hv : env.serverVersionRes with e | u
    · simp only [hv] at h
      exact absurd h (by simp)
    · simp only [hv] at h
      rcases hp : env.productSleeping with e | sleeping
      · simp only [hp] at h
        exact absurd h (by simp)
      · simp only [hp] at h
        cases sleeping
        · simp only [Bool.false_eq_true, if_false] at h
          rcases hwt : env.workloadType with e | wt
          · simp only [hwt] at h
            exact absurd h (by simp)
          · simp only [hwt] at h
            by_cases hw : (wt == "") = true
            · simp only [hw, if_true] at h
              rcases hru : runUnknown env t
                  (trimSuffixStr t.containerName ("_" ++ t.serviceName)) with ⟨err, t2, rep⟩
              simp only [hru] at h
              rcases err with _ | e2
              · cases rep
                · simp only [Bool.false_eq_true, if_false] at h
                  exact absurd h (by simp)
                · simp only [if_true] at h
                  injection h with h1 h2
                  obtain ⟨s, hs, hne⟩ := runUnknown_grow env t _ t2 hru
                  rw [h2] at hs
                  exact ⟨s, hs, hne⟩
              · exact absurd h (by simp)
            · simp only [hw, Bool.false_eq_true, if_false] at h
              rcases hrk : runKnown env t
                  (trimSuffixStr t.containerName ("_" ++ t.serviceName)) wt with ⟨err, t2, rep⟩
              simp only [hrk] at h
              rcases err with _ | e2
              · cases rep
                · simp only [Bool.false_eq_true, if_false] at h
                  exact absurd h (by simp)
                · simp only [if_true] at h
                  injection h with h1 h2
                  obtain ⟨s, hs, hne⟩ := runKnown_grow env t _ wt t2 hrk
                  rw [h2] at hs
                  exact ⟨s, hs, hne⟩
              · exact absurd h (by simp)
        · simp only [if_true] at h
          exact absurd h (by simp)

/-- C4: starting from an empty `ReplaceResources` list, `Run` is atomic —
if it finishes with no resource recorded its status is Failed — and when
the discovery phase is reached and no discovered workload has a container
matching the stripped logical container name, `Run` fails with the
container-not-found error and records nothing (the task is unchanged
except for the failure status and message). -/
theorem c4_no_match_atomicity (env : RunEnv) (t : DeployTask)
    (h0 : t.replaceResources = []) :
    ((runDeploy env t).replaceResources = [] → (runDeploy env t).taskStatus = Status.failed)
    ∧ (noMatchEnv env t = true →
        runDeploy env t
          = { t with
                taskStatus := Status.failed,
                error := "container " ++ trimSuffixStr t.containerName ("_" ++ t.serviceName)
                  ++ " is not found in resources " }) := by
  constructor
  · intro hempty
    rcases hb : runBody env t with ⟨err, t1⟩
    rcases err with _ | m
    · exfalso
      obtain ⟨s, hs, hne⟩ := runBody_none_grows env t t1 hb
      have hrd : runDeploy env t = t1 := by
        unfold runDeploy
        rw [hb]
      rw [hrd] at hempty
      rw [hempty, h0, List.nil_append] at hs
      exact hne hs.symm
    · have hrd : runDeploy env t = { t1 with taskStatus := .failed, error := m } := by
        unfold runDeploy
        rw [hb]
      rw [hrd]
  · intro hnm
    unfold noMatchEnv at hnm
    rw [Bool.and_eq_true, Bool.and_eq_true, Bool.and_eq_true] at hnm
    obtain ⟨⟨⟨hc1, hc2⟩, hc3⟩, hc4⟩ := hnm
    rcases hcc : clusterConfigStep env with e | carried
    · simp only [hcc] at hc1
      exact absurd hc1 (by simp)
    · rcases hv : env.serverVersionRes with e | u
      · simp only [hv] at hc2
        exact absurd hc2 (by simp)
      · rcases hp : env.productSleeping with e | sleeping
        · simp only [hp] at hc3
          exact absurd hc3 (by simp)
        · simp only [hp] at hc3
          cases sleeping
          case true => exact absurd hc3 (by simp)
          case false =>
          rcases hwt : env.workloadType with e | wt
          · simp only [hwt] at hc4
            exact absurd hc4 (by simp)
          · simp only [hwt] at hc4
            by_cases hw : (wt == "") = true
            · simp only [hw, if_true] at hc4
              rcases hf : (fetchRelatedWorkloads env).1 with e | ⟨ds, ss, cs, cbs⟩
              · simp only [hf] at hc4
                exact absurd hc4 (by simp)
              · simp only [hf] at hc4
                rw [List.append_assoc, List.append_assoc] at hc4
                rw [List.all_append, Bool.and_eq_true] at hc4
                obtain ⟨hds, hc4b⟩ := hc4
                rw [List.all_append, Bool.and_eq_true] at hc4b
                obtain ⟨hss, hc4c⟩ := hc4b
                rw [List.all_append, Bool.and_eq_true] at hc4c
                obtain ⟨hcs, hcbs⟩ := hc4c
                have hrun : runUnknown env t
                    (trimSuffixStr t.containerName ("_" ++ t.serviceName)) = (none, t, false) := by
                  unfold runUnknown
                  simp only [hf,
                    mutateList_nomatch env deploymentKind "deployments" ds _ t false
                      (findMatch_none_of_no_match ds _ hds),
                    mutateList_nomatch env statefulSetKind "statefulsets" ss _ t false
                      (findMatch_none_of_no_match ss _ hss),
                    mutateList_nomatch env cronJobKind "statefulsets" cs _ t false
                      (findMatch_none_of_no_match cs _ hcs),
                    mutateList_nomatch env cronJobKind "statefulsets" cbs _ t false
                      (findMatch_none_of_no_match cbs _ hcbs)]
                unfold runDeploy runBody
                rw [hcc, hv, hp]
                simp only [Bool.false_eq_true, if_false, hwt, hw, if_true, hrun]
            · simp only [hw, Bool.false_eq_true, if_false] at hc4
              have hrun : runKnown env t
                  (trimSuffixStr t.containerName ("_" ++ t.serviceName)) wt
                  = (none, t, false) := by
                by_cases hw1 : (wt == statefulSetKind) = true
                · simp only [hw1, if_true] at hc4
                  rcases hg : env.getStatefulSetByName t.serviceName with e | w?
                  · simp only [hg] at hc4
                    exact absurd hc4 (by simp)
                  · rcases w? with _ | w
                    · simp only [hg] at hc4
                      exact absurd hc4 (by simp)
                    · simp only [hg] at hc4
                      have hfind := find_none_of_no_container w _ (by simpa using hc4)
                      unfold runKnown
                      simp only [hw1, if_true, hg,
                        mutateOne_nomatch env statefulSetKind "statefulsets" w _ t false hfind]
                · simp only [hw1, Bool.false_eq_true, if_false] at hc4
                  by_cases hw2 : (wt == deploymentKind) = true
                  · simp only [hw2, if_true] at hc4
                    rcases hg : env.getDeploymentByName t.serviceName with e | w?
                    · simp only [hg] at hc4
                      exact absurd hc4 (by simp)
                    · rcases w? with _ | w
                      · simp only [hg] at hc4
                        exact absurd hc4 (by simp)
                      · simp only [hg] at hc4
                        have hfind := find_none_of_no_container w _ (by simpa using hc4)
                        unfold runKnown
                        simp only [hw1, hw2, Bool.false_eq_true, if_false, if_true, hg,
                          mutateOne_nomatch env deploymentKind "deployments" w _ t false hfind]
                  · simp only [hw2, Bool.false_eq_true, if_false] at hc4
                    by_cases hw3 : (wt == cronJobKind) = true
                    · simp only [hw3, if_true] at hc4
                      rcases hg : env.getCronJobByName t.serviceName with e | ⟨found, cjOpt, cbOpt⟩
                      · simp only [hg] at hc4
                        exact absurd hc4 (by simp)
                      · cases found
                        · simp only [hg] at hc4
                          exact absurd hc4 (by simp)
                        · simp only [hg, Bool.and_eq_true] at hc4
                          obtain ⟨hcj, hcb⟩ := hc4
                          unfold runKnown
                          simp only [hw1, hw2, hw3, Bool.false_eq_true, if_false, if_true, hg]
                          rcases cjOpt with _ | w1
                          · rcases cbOpt with _ | w2
                            · rfl
                            · have hfind2 := find_none_of_no_container w2 _ (by simpa using hcb)
                              simp only [mutateOne_nomatch env cronJobKind "cronJob" w2 _ t false hfind2]
                          · have hfind1 := find_none_of_no_container w1 _ (by simpa using hcj)
                            rcases cbOpt with _ | w2
                            · simp only [mutateOne_nomatch env cronJobKind "cronJob" w1 _ t false hfind1]
                            · have hfind2 := find_none_of_no_container w2 _ (by simpa using hcb)
                              simp only [mutateOne_nomatch env cronJobKind "cronJob" w1 _ t false hfind1,
                                mutateOne_nomatch env cronJobKind "cronJob" w2 _ t false hfind2]
                    · simp only [hw3, Bool.false_eq_true, if_false] at hc4
                      unfold runKnown
                      simp only [hw1, hw2, hw3, Bool.false_eq_true, if_false]
              unfold runDeploy runBody
              rw [hcc, hv, hp]
              simp only [Bool.false_eq_true, if_false, hwt, hw, hrun]

/-- An environment whose label path and manifest fallback both discover
no workloads at all. -/
def envNoWorkloads : RunEnv :=
  { envClientSetFail with clientSetRes := .ok (), listDeployments := .ok [] }

/-- Witness for C4: with nothing discovered, `Run` fails with the
container-not-found message and records nothing. -/
theorem c4_witness :
    baseTask.replaceResources = []
    ∧ noMatchEnv envNoWorkloads baseTask = true
    ∧ runDeploy envNoWorkloads baseTask
        = { baseTask with
              taskStatus := Status.failed,
              error := "container api is not found in resources " } := by
  refine ⟨rfl, rfl, ?_⟩
  have h := (c4_no_match_atomicity envNoWorkloads baseTask rfl).2 rfl
  rw [h]
  rfl

theorem mutateOne_labels (env : RunEnv) (k fk : String) (w : Workload)
    (c : String) (t : DeployTask) (rep : Bool) (t1 : DeployTask) (rep1 : Bool)
    (h : mutateOne env k fk w c t rep = .ok (t1, rep1)) :
    t1.relatedPodLabels = t.relatedPodLabels := by
  unfold mutateOne at h
  rcases hm : w.containers.find? (fun x => x.name == c) with _ | cc
  · simp only [hm] at h
    injection h with h
    injection h with h1 h2
    rw [← h1]
  · simp only [hm] at h
    rcases hu : env.updateImage k w.name with e | uu
    · simp only [hu] at h
      exact absurd h (by simp)
    · simp only [hu] at h
      injection h with h
      injection h with h1 h2
      rw [← h1]

theorem runKnown_labels (env : RunEnv) (t : DeployTask) (c wt : String)
    (err : Option String) (t1 : DeployTask) (rep : Bool)
    (h : runKnown env t c wt = (err, t1, rep)) :
    t1.relatedPodLabels = t.relatedPodLabels := by
  unfold runKnown at h
  by_cases hw1 : (wt == statefulSetKind) = true
  · simp only [hw1, if_true] at h
    rcases hg : env.getStatefulSetByName t.serviceName with e | w?
    · simp only [hg] at h
      injection h with h1 h
      injection h with h2 h3
      rw [← h2]
    · simp only [hg] at h
      rcases w? with _ | w
      · injection h with h1 h
        injection h with h2 h3
        rw [← h2]
      · rcases hm : mutateOne env statefulSetKind "statefulsets" w c t false with e | ⟨ta, ra⟩
        · simp only [hm] at h
          injection h with h1 h
          injection h with h2 h3
          rw [← h2]
        · simp only [hm] at h
          injection h with h1 h
          injection h with h2 h3
          rw [← h2]
          exact mutateOne_labels env _ _ w c t false ta ra hm
  · simp only [hw1, Bool.false_eq_true, if_false] at h
    by_cases hw2 : (wt == deploymentKind) = true
    · simp only [hw2, if_true] at h
      rcases hg : env.getDeploymentByName t.serviceName with e | w?
      · simp only [hg] at h
        injection h with h1 h
        injection h with h2 h3
        rw [← h2]
      · simp only [hg] at h
        rcases w? with _ | w
        · injection h with h1 h
          injection h with h2 h3
          rw [← h2]
        · rcases hm : mutateOne env deploymentKind "deployments" w c t false with e | ⟨ta, ra⟩
          · simp only [hm] at h
            injection h with h1 h
            injection h with h2 h3
            rw [← h2]
          · simp only [hm] at h
            injection h with h1 h
            injection h with h2 h3
            rw [← h2]
            exact mutateOne_labels env _ _ w c t false ta ra hm
    · simp only [hw2, Bool.false_eq_true, if_false] at h
      by_cases hw3 : (wt == cronJobKind) = true
      · simp only [hw3, if_true] at h
        rcases hg : env.getCronJobByName t.serviceName with e | ⟨found, cjOpt, cbOpt⟩
        · simp only [hg] at h
          injection h with h1 h
          injection h with h2 h3
          rw [← h2]
        · cases found
          · -- found = false
            simp only [hg] at h
            injection h with h1 h
            injection h with h2 h3
            rw [← h2]
          · -- found = true
            simp only [hg] at h
            have step1lab :
                ∀ ta ra, (match cjOpt with
                   | none => Except.ok (t, false)
                   | some w => mutateOne env cronJobKind "cronJob" w c t false)
                  = Except.ok (ta, ra) → ta.relatedPodLabels = t.relatedPodLabels := by
              intro ta ra hstep
              rcases cjOpt with _ | w
              · injection hstep with hstep
                injection hstep with hy hz
                rw [← hy]
              · exact mutateOne_labels env _ _ w c t false ta ra hstep
            rcases hs1 : (match cjOpt with
                | none => Except.ok (t, false)
                | some w => mutateOne env cronJobKind "cronJob" w c t false) with e | ⟨ta, ra⟩
            · simp only [hs1] at h
              injection h with h1 h
              injection h with h2 h3
              rw [← h2]
            · simp only [hs1] at h
              rcases hs2 : (match cbOpt with
                  | none => Except.ok (ta, ra)
                  | some w => mutateOne env cronJobKind "cronJob" w c ta ra) with e | ⟨tb, rb⟩
              · simp only [hs2] at h
                injection h with h1 h
                injection h with h2 h3
                rw [← h2]
                exact step1lab ta ra hs1
              · simp only [hs2] at h
                injection h with h1 h
                injection h with h2 h3
                rw [← h2]
                have hb2 : tb.relatedPodLabels = ta.relatedPodLabels := by
                  rcases cbOpt with _ | w
                  · injection hs2 with hs2
                    injection hs2 with hy hz
                    rw [← hy]
                  · exact mutateOne_labels env _ _ w c ta ra tb rb hs2
                rw [hb2]
                exact step1lab ta ra hs1
      · simp only [hw3, Bool.false_eq_true, if_false] at h
        injection h with h1 h
        injection h with h2 h3
        rw [← h2]

theorem runBody_labels_known (env : RunEnv) (t : DeployTask) (wt : String)
    (hwt : env.workloadType = .ok wt) (hne : (wt == "") = false) :
    (runBody env t).2.relatedPodLabels = t.relatedPodLabels := by
  unfold runBody
  rcases hcc : clusterConfigStep env with e | carried
  · rfl
  · rcases hv : env.serverVersionRes with e | u
    · rfl
    · rcases hp : env.productSleeping with e | sleeping
      · rfl
      · cases sleeping
        case false =>
          rw [hwt]
          simp only [Bool.false_eq_true, if_false, hne]
          rcases hrk : runKnown env t
              (trimSuffixStr t.containerName ("_" ++ t.serviceName)) wt with ⟨e2, t2, rep⟩
          have hl := runKnown_labels env t _ wt e2 t2 rep hrk
          rcases e2 with _ | m
          · cases rep
            · exact hl
            · exact hl
          · exact hl
        case true => rfl

/-- C10: through the known-`WorkloadType` path `Run` appends nothing to
`RelatedPodLabels`; consequently, in a Wait over the resulting task, the
fast-fail pod scan iterates no label selectors and returns clean, and the
timeout diagnostic scan collects nothing, leaving `Error` unchanged. -/
theorem c10_known_path_no_pod_labels (env : RunEnv) (t : DeployTask) (wt : String)
    (f : Labels → Except String (List Pod)) (uid : String) (tenv : TickEnv)
    (hwt : env.workloadType = .ok wt) (hne : wt ≠ "") (hlb : t.relatedPodLabels = []) :
    (runDeploy env t).relatedPodLabels = []
    ∧ workLoadDeployStat f (runDeploy env t).relatedPodLabels uid = none
    ∧ (waitTimeout tenv (runDeploy env t)).taskStatus = Status.timeout
    ∧ (waitTimeout tenv (runDeploy env t)).error = (runDeploy env t).error := by
  have hbeq : (wt == "") = false := by
    simpa using hne
  have hlab : (runDeploy env t).relatedPodLabels = [] := by
    have hb := runBody_labels_known env t wt hwt hbeq
    unfold runDeploy
    rcases hx : runBody env t with ⟨err, t1⟩
    simp only [hx] at hb
    have hb2 : t1.relatedPodLabels = t.relatedPodLabels := hb
    rcases err with _ | m
    · exact hb2.trans hlb
    · exact hb2.trans hlb
  refine ⟨hlab, ?_, waitTimeout_status tenv _, ?_⟩
  · rw [hlab]
    rfl
  · unfold waitTimeout
    rw [hlab]
    rfl

/-- A `Run` environment taking the known-Deployment path successfully. -/
def envKnownDep : RunEnv :=
  { envClientSetFail with
      clientSetRes := .ok (),
      workloadType := .ok "Deployment",
      getDeploymentByName := fun _ => .ok (some deployFixture) }

/-- Witness for C10: a successful known-Deployment run leaves the label
list empty, so the pod scans contribute nothing. -/
theorem c10_witness :
    envKnownDep.workloadType = Except.ok "Deployment"
    ∧ (runDeploy envKnownDep baseTask).relatedPodLabels = []
    ∧ workLoadDeployStat tickTimedOut.listPods
        (runDeploy envKnownDep baseTask).relatedPodLabels "u" = none
    ∧ (waitTimeout tickSts332 (runDeploy envKnownDep baseTask)).error
      = (runDeploy envKnownDep baseTask).error := by
  have h := c10_known_path_no_pod_labels envKnownDep baseTask "Deployment"
    tickTimedOut.listPods "u" tickSts332 rfl (by decide) rfl
  exact ⟨rfl, h.1, h.2.1, h.2.2.2⟩

end ZadigDeploy
